import Mathlib

/-!
Verification development for the CHAI attendance system.

Shallow embedding of the decision pipeline: the attendance ledger
(`services/database_service.py`, `database/models.py`), the liveness verifier
(`services/liveness_detector.py`, `services/flash_liveness_service.py`), the
identity index (`services/face_recognition_service.py`) and the orchestrators
(`app.py` route `take_attendance_browser`, `main.py` `attendance_flow`).

Python floats are modelled as rationals (`Rat`); the one genuinely irrational
quantity (`np.std`, a square root) is modelled over `Real`.  Image processing
(OpenCV / numpy pixel work, base64 decoding, face embedding extraction) is an
external capability per the spec's scope and enters the model as opaque
functions supplied by the environment; everything downstream of the produced
numbers is embedded faithfully from the source.
-/

/-- A point in time: the local calendar day (as produced by SQL `func.date` /
`datetime.date.today`) together with a time-of-day component. -/
structure Timestamp where
  day : Int
  tod : Rat
deriving DecidableEq, Repr

/-- `database/models.py` `Student`: identity record. -/
structure Student where
  id : Int
  name : String
  roll_no : String
  class_name : String
  image_path : String
deriving DecidableEq, Repr

/-- `database/models.py` `Attendance`: one attendance event row.  The model
declares `timestamp = Column(DateTime, default=datetime.datetime.now)`, so the
timestamp is filled from the clock when the row is inserted. -/
structure Attendance where
  student_id : Int
  timestamp : Timestamp
  confidence : Rat
deriving DecidableEq, Repr

/-- The rows of the `attendance` table, in insertion order. -/
structure LedgerState where
  events : List Attendance
deriving DecidableEq, Repr

/-- `DatabaseService.mark_attendance(student_id, confidence)`: builds an
`Attendance` row and commits it.  The method takes no timestamp argument; the
row's timestamp comes from the model's column default, i.e. the ambient clock
`now` at the moment of insertion, which the embedding passes explicitly.
No duplicate check of any kind is performed. -/
def mark_attendance (s : LedgerState) (student_id : Int) (confidence : Rat)
    (now : Timestamp) : Attendance × LedgerState :=
  let a : Attendance := ⟨student_id, now, confidence⟩
  (a, ⟨s.events ++ [a]⟩)

/-- `DatabaseService.is_attendance_marked_today(student_id)`: true iff some row
for this student carries today's calendar date. -/
def is_attendance_marked_today (s : LedgerState) (student_id : Int)
    (today : Int) : Bool :=
  s.events.any (fun a => a.student_id == student_id && a.timestamp.day == today)

/-- `DatabaseService.get_student_by_id(student_id)`: first student whose `id`
column equals the argument. -/
def get_student_by_id (students : List Student) (i : Int) : Option Student :=
  students.find? (fun s => s.id == i)

/-- The attribute names actually defined on `DatabaseService`
(`services/database_service.py`).  Python resolves method calls by name at
runtime; a call to a name outside this list raises `AttributeError`. -/
def databaseServiceMethodList : List String :=
  let a : String := "__init__"
  let b : String := "enroll_student"
  let c : String := "get_student_by_id"
  let d : String := "get_student_by_roll"
  let e : String := "list_students"
  let f : String := "mark_attendance"
  let g : String := "is_attendance_marked_today"
  let h : String := "get_attendance_by_date_range"
  let i : String := "get_all_attendance_records"
  let j : String := "close"
  [a, b, c, d, e, f, g, h, i, j]

/-- The method name `app.py` line 451 invokes for the same-day duplicate
check. -/
def getAttendanceRecordName : String := "get_attendance_record"

/-- Whether the duplicate-check call in `take_attendance_browser` resolves to
an attribute of `DatabaseService`. -/
def dupCheckMethodExists : Bool :=
  databaseServiceMethodList.contains getAttendanceRecordName

example : dupCheckMethodExists = false := by decide

/-! ## Liveness detector (`services/liveness_detector.py`) -/

/-- `LivenessDetector.__init__` threshold constants. -/
def MIN_BRIGHTNESS_CHANGE : Rat := 5 / 2

def MAX_BRIGHTNESS_CHANGE : Rat := 12

def MIN_COLOR_VARIANCE : Rat := 2400

def MAX_EDGE_DENSITY : Rat := 6 / 100

def MIN_UNIFORMITY_BOUND : Rat := 52

def MAX_NONUNIFORMITY_BOUND : Rat := 2 / 5

def MIN_MEAN_DELTA_BOUND : Rat := 4 / 5

def MAX_MEAN_DELTA_BOUND : Rat := 5 / 2

def MIN_TOTAL_SCORE : Rat := 21 / 5

def HARD_FAIL_EDGE_DENSITY : Rat := 65 / 1000

def HARD_FAIL_LOW_VARIANCE : Rat := 2200

/-- The six numeric liveness metrics that `analyze_frames` computes from the
frame batches via OpenCV (the pixel work itself is the external capability). -/
structure RawMetrics where
  brightness_change_percent : Rat
  color_variance : Rat
  edge_density : Rat
  uniformity : Rat
  nonuniformity : Rat
  mean_delta : Rat
deriving DecidableEq, Repr

/-- The metrics bundle handed to `_check_liveness_with_scoring`: the numbers
plus the `distance_feedback` string `analyze_frames` inserts. -/
structure Metrics extends RawMetrics where
  distance_feedback : String
deriving DecidableEq, Repr

/-- Abstraction of Python's fixed-point number formatting inside the reason
f-strings; only the rendered text differs, never emptiness or structure. -/
def fmtQ (q : Rat) : String := toString q

def moveCloserMsg : String := "⬅️ Please move CLOSER to the camera"

def moveBackMsg : String := "➡️ Please move BACK from the camera"

def moveSlightlyCloserMsg : String := "⬅️ Move slightly CLOSER for better detection"

def distancePerfectMsg : String := "✅ Distance is perfect!"

def positionNotOptimalMsg : String := "⚠️ Position not optimal - try adjusting distance"

/-- `LivenessDetector._get_distance_feedback`: sequential early-return `if`s
over color variance and brightness-change percent. -/
def get_distance_feedback (variance brightness : Rat) : String :=
  if variance < 2200 ∧ brightness < 3 then moveCloserMsg
  else if brightness > 13 then moveBackMsg
  else if variance < 2600 then moveSlightlyCloserMsg
  else if 2800 ≤ variance ∧ variance ≤ 4000 ∧ 3 ≤ brightness ∧ brightness ≤ 10 then
    distancePerfectMsg
  else positionNotOptimalMsg

def screenDetectedMsg : String := "🚫 Screen detected (edge density: "

def tooFarOrFlatMsg : String := "📍 Too far from camera or flat surface (variance: "

def refreshPatternMsg : String := "🚫 Screen refresh pattern detected (nonuniformity: "

def closeParen : String := ")"

def tooFarReasonTxt : String := "Too far from camera"

def tooCloseReasonTxt : String := "Too close to camera"

def lowDetailTxt : String := "Low detail"

def highEdgesTxt : String := "High edges"

def flatSurfaceTxt : String := "Flat surface"

def inconsistentTxt : String := "Inconsistent"

def motionIssueTxt : String := "Motion issue"

def lowConfidencePrefix : String := "Low confidence ("

def lowConfidenceSuffix : String := "/6.0) - "

def pinPrefix : String := "📍 "

def commaSep : String := ", "

/-- The keys of the `scores` dict, in insertion order. -/
inductive ScoreKey where
  | brightness
  | variance
  | edges
  | uniformity
  | nonuniformity
  | mean_delta
deriving DecidableEq, Repr

/-- Check 1 of `_check_liveness_with_scoring`: brightness score and appended
reason. -/
def brightness_score (m : Metrics) : Rat × List String :=
  if MIN_BRIGHTNESS_CHANGE ≤ m.brightness_change_percent ∧
      m.brightness_change_percent ≤ MAX_BRIGHTNESS_CHANGE then
    (max (1 / 2) (1 - |m.brightness_change_percent - 6| / 8), [])
  else if m.brightness_change_percent < MIN_BRIGHTNESS_CHANGE then
    (1 / 5, [tooFarReasonTxt])
  else (1 / 5, [tooCloseReasonTxt])

/-- Check 2: color-variance score. -/
def variance_score (m : Metrics) : Rat × List String :=
  if m.color_variance ≥ MIN_COLOR_VARIANCE then
    (if m.color_variance ≥ 2800 then
      min 1 (4 / 5 + (m.color_variance - 2800) / 3000)
    else 1 / 2 + (m.color_variance - 2400) / 1000, [])
  else (1 / 10, [lowDetailTxt])

/-- Check 3: edge-density score. -/
def edge_score (m : Metrics) : Rat × List String :=
  if m.edge_density ≤ MAX_EDGE_DENSITY then
    (3 / 5 + 2 / 5 * (1 - m.edge_density / MAX_EDGE_DENSITY), [])
  else (1 / 5, [highEdgesTxt])

/-- Check 4: uniformity score. -/
def uniformity_score (m : Metrics) : Rat × List String :=
  if m.uniformity ≥ MIN_UNIFORMITY_BOUND then
    (min 1 (7 / 10 + (m.uniformity - MIN_UNIFORMITY_BOUND) / 30), [])
  else if m.uniformity ≥ 45 then (1 / 2, [])
  else (1 / 5, [flatSurfaceTxt])

/-- Check 5: nonuniformity score. -/
def nonuniformity_score (m : Metrics) : Rat × List String :=
  if m.nonuniformity ≤ MAX_NONUNIFORMITY_BOUND then
    (4 / 5 + 1 / 5 * (1 - m.nonuniformity / MAX_NONUNIFORMITY_BOUND), [])
  else (3 / 10, [inconsistentTxt])

/-- Check 6: mean-delta score. -/
def mean_delta_score (m : Metrics) : Rat × List String :=
  if MIN_MEAN_DELTA_BOUND ≤ m.mean_delta ∧ m.mean_delta ≤ MAX_MEAN_DELTA_BOUND then
    (max (3 / 5) (1 - |m.mean_delta - 3 / 2| / (3 / 2)), [])
  else if 3 / 5 ≤ m.mean_delta ∧ m.mean_delta ≤ 14 / 5 then (2 / 5, [])
  else (1 / 10, [motionIssueTxt])

/-- `LivenessDetector._check_liveness_with_scoring(m)`: hard-fail conditions
first (returning an empty scores dict), then the six per-metric scores, the
composite-score verdict and the failure reason. -/
def check_liveness_with_scoring (m : Metrics) :
    Bool × String × List (ScoreKey × Rat) :=
  if m.edge_density > HARD_FAIL_EDGE_DENSITY then
    (false, screenDetectedMsg ++ fmtQ m.edge_density ++ closeParen, [])
  else if m.color_variance < HARD_FAIL_LOW_VARIANCE then
    (false, tooFarOrFlatMsg ++ fmtQ m.color_variance ++ closeParen, [])
  else if m.nonuniformity > 3 / 5 then
    (false, refreshPatternMsg ++ fmtQ m.nonuniformity ++ closeParen, [])
  else
    let scores := [(ScoreKey.brightness, (brightness_score m).1),
      (ScoreKey.variance, (variance_score m).1),
      (ScoreKey.edges, (edge_score m).1),
      (ScoreKey.uniformity, (uniformity_score m).1),
      (ScoreKey.nonuniformity, (nonuniformity_score m).1),
      (ScoreKey.mean_delta, (mean_delta_score m).1)]
    let reasons := (brightness_score m).2 ++ (variance_score m).2 ++
      (edge_score m).2 ++ (uniformity_score m).2 ++
      (nonuniformity_score m).2 ++ (mean_delta_score m).2
    let total_score := (brightness_score m).1 + (variance_score m).1 +
      (edge_score m).1 + (uniformity_score m).1 +
      (nonuniformity_score m).1 + (mean_delta_score m).1
    let is_live := total_score ≥ MIN_TOTAL_SCORE
    let fail_reason :=
      if is_live then ""
      else if m.color_variance < 2400 ∨ m.brightness_change_percent < 3 then
        pinPrefix ++ m.distance_feedback
      else if m.brightness_change_percent > 13 then
        pinPrefix ++ m.distance_feedback
      else
        lowConfidencePrefix ++ fmtQ total_score ++ lowConfidenceSuffix ++
          String.intercalate commaSep (reasons.take 2)
    (decide is_live, fail_reason, scores)

/-- `LivenessDetector.analyze_frames(before_frames, after_frames)` downstream
of the metric extraction: builds the metrics bundle (adding the distance
feedback), runs the scoring check and returns `(is_live, metrics, fail_reason)`
(the returned `scores` sub-dict lives in the check's own result here). -/
def analyze_frames (r : RawMetrics) : Bool × Metrics × String :=
  let fb := get_distance_feedback r.color_variance r.brightness_change_percent
  let m : Metrics := ⟨r, fb⟩
  let res := check_liveness_with_scoring m
  (res.1, m, res.2.1)

/-! ## Identity index (`services/face_recognition_service.py`) -/

/-- Squared L2 distance between two vectors, the metric FAISS `IndexFlatL2`
computes and reports. -/
def l2sq (u v : List Rat) : Rat :=
  ((u.zip v).map (fun p => (p.1 - p.2) ^ 2)).sum

/-- Scan stored vectors from position `i` keeping the best `(position,
distance)` pair; only a strict improvement replaces the best, so ties keep
the earliest position, as FAISS reports for `k = 1`. -/
def nearestAux (q : List Rat) : List (List Rat) → Nat → Nat × Rat → Nat × Rat
  | [], _, best => best
  | v :: vs, i, best =>
    if l2sq q v < best.2 then nearestAux q vs (i + 1) (i, l2sq q v)
    else nearestAux q vs (i + 1) best

/-- `self.index.search(embedding, k=1)`: position and squared-L2 distance of
the nearest stored vector; `none` on an empty index. -/
def searchNearest (index : List (List Rat)) (q : List Rat) : Option (Nat × Rat) :=
  match index with
  | [] => none
  | v :: vs => some (nearestAux q vs 1 (0, l2sq q v))

/-- The in-memory pair `FaceRecognitionService` maintains: the FAISS index
(stored vectors in insertion order) and the parallel `id_map` of subject
keys. -/
structure FaceIndexState where
  index : List (List Rat)
  id_map : List String
deriving DecidableEq, Repr

def emptyKey : String := ""

/-- `FaceRecognitionService.find_match(embedding)`: `(None, None)` on an empty
index; otherwise the nearest entry's distance `d`, returning `(None, d)` when
`d > threshold` and `(id_map[idx], d)` otherwise.  (`getD` with a junk default
models the list indexing, in range whenever the index/id_map pairing invariant
holds; Python would raise `IndexError` outside it.) -/
def find_match (st : FaceIndexState) (threshold : Rat) (emb : List Rat) :
    Option String × Option Rat :=
  match searchNearest st.index emb with
  | none => (none, none)
  | some pr =>
    if pr.2 > threshold then (none, some pr.2)
    else (some (st.id_map.getD pr.1 emptyKey), some pr.2)

/-- On-disk companion of the index: the two files `_save_index` writes and
`_load_index` reads (`faiss_index.bin`, `id_map.bin`), each possibly absent. -/
structure DiskState where
  index_file : Option (List (List Rat))
  id_map_file : Option (List String)
deriving DecidableEq, Repr

/-- `FaceRecognitionService._save_index`: writes both files. -/
def save_index (st : FaceIndexState) (_d : DiskState) : DiskState :=
  ⟨some st.index, some st.id_map⟩

/-- `FaceRecognitionService._load_index`: reads each file if present, else a
fresh empty index / empty id map. -/
def load_index (d : DiskState) : FaceIndexState :=
  ⟨d.index_file.getD [], d.id_map_file.getD []⟩

/-- `FaceRecognitionService.add_to_index(embedding, student_id)`: appends the
vector to the FAISS index and `str(student_id)` to `id_map`, then saves both
to disk. -/
def add_to_index (st : FaceIndexState) (emb : List Rat) (student_id : String)
    (d : DiskState) : FaceIndexState × DiskState :=
  let st' : FaceIndexState := ⟨st.index ++ [emb], st.id_map ++ [student_id]⟩
  (st', save_index st' d)

/-! ## Flash liveness (`services/flash_liveness_service.py`) -/

/-- `np.mean` over a list of rationals (the metric arrays are nonempty in
every reachable call). -/
def meanQ (xs : List Rat) : Rat := if xs = [] then 0 else xs.sum / xs.length

/-- `np.var`: mean squared deviation from the mean. -/
def varQ (xs : List Rat) : Rat := meanQ (xs.map (fun x => (x - meanQ xs) ^ 2))

/-- `np.std`: square root of the variance (the one irrational quantity of the
model). -/
noncomputable def npStd (xs : List Rat) : ℝ := Real.sqrt ((varQ xs : Rat) : ℝ)

def flashEps : Rat := 1 / 100000000

/-- `np.clip(delta, 0, None)` applied pointwise. -/
def clip0 (x : Rat) : Rat := max 0 x

/-- `_compute_flash_metrics` `mean_delta`: mean of the positive part of the
per-pixel brightness delta between the averaged after and before crops. -/
def flash_mean_delta (deltas : List Rat) : Rat := meanQ (deltas.map clip0)

/-- `_compute_flash_metrics` `nonuniformity`:
`std(delta_pos) / (mean_delta + eps)` when `mean_delta > 0`, else `0.0`. -/
noncomputable def flash_nonuniformity (deltas : List Rat) : ℝ :=
  let dp := deltas.map clip0
  if 0 < meanQ dp then npStd dp / (((meanQ dp : Rat) : ℝ) + ((flashEps : Rat) : ℝ))
  else 0

/-- `FlashLivenessService.__init__` configuration. -/
structure FlashConfig where
  min_mean_delta : Rat
  max_nonuniformity : Rat
  max_mean : Rat
deriving DecidableEq, Repr

/-- Module-level defaults `MIN_MEAN_DELTA = 0.03`, `MAX_NONUNIFORMITY = 3.0`,
`MAX_MEAN = 0.5`. -/
def flashDefaults : FlashConfig := ⟨3 / 100, 3, 1 / 2⟩

/-- The decision in `FlashLivenessService.verify_liveness`:
`(nonuniformity <= self.max_nonuniformity) and (mean_delta <= self.max_mean)`.
These are the only configuration fields the verdict reads. -/
def flash_verdict (cfg : FlashConfig) (mean_delta : Rat) (nonuni : ℝ) : Prop :=
  nonuni ≤ ((cfg.max_nonuniformity : Rat) : ℝ) ∧ mean_delta ≤ cfg.max_mean

/-! ## Confidence mapping (`main.py`) -/

/-- `main.compute_confidence_from_distance` on a numeric distance. -/
def compute_confidence_from_distance (d : Rat) : Rat := 1 / (1 + d)

/-- The same call on the optional distance `find_match` returned: `float(None)`
raises, and the `except` arm returns `0.0`. -/
def compute_confidence_opt (d : Option Rat) : Rat :=
  match d with
  | none => 0
  | some x => compute_confidence_from_distance x

/-- Python `int(s)` on the subject keys this system stores (`str(student.id)`,
decimal digit strings): the parsed integer, or `None` standing for the
`ValueError` on a non-numeric key.  (Sign and whitespace tolerance of the
builtin are irrelevant to the stored key format.) -/
def parse_int (s : String) : Option Int :=
  let ds := s.data
  if ds ≠ [] ∧ ds.all (fun c => c.isDigit) then
    some (Int.ofNat (ds.foldl (fun acc c => 10 * acc + (c.toNat - 48)) 0))
  else none

/-- `main.safe_cast_int`: `int(x)` when that succeeds, the value unchanged
otherwise. -/
def safe_cast_int (s : String) : Int ⊕ String :=
  match parse_int s with
  | some n => Sum.inl n
  | none => Sum.inr s

/-! ## Browser pipeline (`app.py`, route `take_attendance_browser`) -/

/-- One attendance request body: the two base64 frame batches and the
caller-reported coordinates. -/
structure AttendanceRequest where
  before_frames : List String
  after_frames : List String
  latitude : Option Rat
  longitude : Option Rat

/-- The external capabilities the route calls: location verification,
base64/JPEG frame decoding, the OpenCV metric extraction inside
`analyze_frames`, and InsightFace embedding extraction.  `Img` is the decoded
image type. -/
structure AppEnv (Img : Type) where
  verify_location : Option Rat → Option Rat → Bool × Option Rat × String
  decode_base64_image : String → Option Img
  frame_metrics : List Img → List Img → RawMetrics
  extract_embedding_from_frame : Img → List (List Rat)

/-- The claim-relevant part of a Flask JSON reply: the `success` flag, the
`message` field and the HTTP status. -/
structure ApiResponse where
  success : Bool
  message : String
  status : Nat
deriving DecidableEq, Repr

/-- Which pipeline stages executed during one route invocation, and the
`mark_attendance` calls (student id, confidence) that were issued. -/
structure RouteTrace where
  liveness_ran : Bool
  match_ran : Bool
  mark_calls : List (Int × Rat)
deriving DecidableEq, Repr

def expectedFramesMsg : String := "Expected 5 before and 5 after frames"

def decodeFailMsg : String := "Failed to decode one or more frames"

def noFaceMsg : String := "No face detected in frames"

def notRecognizedMsg : String := "Face not recognized. Please enroll first."

def studentNotFoundMsg : String := "Student record not found"

def markedOkMsg : String := "Attendance marked successfully!"

/-- Modelled from the spec: the duplicate rejection of §4.3/§4.4 (the branch
is unreachable in the source — see `dupCheckMethodExists`). -/
def alreadyMarkedMsg : String := "Attendance already marked today"

/-- `str(e)` for the `AttributeError` the duplicate check raises (Python
renders the class and attribute names quoted). -/
def attributeErrorMsg : String :=
  let pre : String := "DatabaseService object has no attribute "
  pre ++ getAttendanceRecordName

/-- `str(e)` for the `IndexError` of `after_images[-1]` on an empty list
(unreachable: the batch length was checked to be 5). -/
def indexErrorMsg : String := "list index out of range"

/-- `str(e)` for the `ValueError` of `int(student_id)` on a non-numeric
subject key. -/
def valueErrorMsg : String := "invalid literal for int with base 10"

/-- `str(e)` for the `TypeError` of `1.0 / (1.0 + None)` (unreachable:
`find_match` returns a distance whenever it returns a key). -/
def typeErrorMsg : String := "unsupported operand type"

/-- `app.take_attendance_browser`: the full route, returning the JSON reply,
the stage trace and the resulting ledger.  Every `return jsonify(...)` of the
source is one exit; the `except` handler (status 500) catches the
`AttributeError` of the duplicate check, whose accept/duplicate continuation
is modelled from the spec because the called method does not exist in the
source. -/
def take_attendance_browser {Img : Type} (env : AppEnv Img)
    (req : AttendanceRequest) (fs : FaceIndexState) (threshold : Rat)
    (students : List Student) (ledger : LedgerState) (today : Int)
    (now : Timestamp) : ApiResponse × RouteTrace × LedgerState :=
  let loc := env.verify_location req.latitude req.longitude
  if loc.1 = false then
    (⟨false, loc.2.2, 400⟩, ⟨false, false, []⟩, ledger)
  else if req.before_frames.length ≠ 5 ∨ req.after_frames.length ≠ 5 then
    (⟨false, expectedFramesMsg, 400⟩, ⟨false, false, []⟩, ledger)
  else
    let beforeDec := req.before_frames.map env.decode_base64_image
    let afterDec := req.after_frames.map env.decode_base64_image
    if beforeDec.any Option.isNone ∨ afterDec.any Option.isNone then
      (⟨false, decodeFailMsg, 400⟩, ⟨false, false, []⟩, ledger)
    else
      let before_images := beforeDec.reduceOption
      let after_images := afterDec.reduceOption
      let lv := analyze_frames (env.frame_metrics before_images after_images)
      if lv.1 = false then
        (⟨false, lv.2.2, 400⟩, ⟨true, false, []⟩, ledger)
      else
        match after_images.getLast? with
        | none => (⟨false, indexErrorMsg, 500⟩, ⟨true, false, []⟩, ledger)
        | some last_frame =>
          match env.extract_embedding_from_frame last_frame with
          | [] => (⟨false, noFaceMsg, 400⟩, ⟨true, false, []⟩, ledger)
          | embedding :: _ =>
            match find_match fs threshold embedding with
            | (none, _) => (⟨false, notRecognizedMsg, 400⟩, ⟨true, true, []⟩, ledger)
            | (some student_id, distOpt) =>
              match parse_int student_id with
              | none => (⟨false, valueErrorMsg, 500⟩, ⟨true, true, []⟩, ledger)
              | some sid =>
                match get_student_by_id students sid with
                | none =>
                  (⟨false, studentNotFoundMsg, 400⟩, ⟨true, true, []⟩, ledger)
                | some student =>
                  match distOpt with
                  | none => (⟨false, typeErrorMsg, 500⟩, ⟨true, true, []⟩, ledger)
                  | some face_distance =>
                    let confidence := 1 / (1 + face_distance)
                    if dupCheckMethodExists = false then
                      (⟨false, attributeErrorMsg, 500⟩, ⟨true, true, []⟩, ledger)
                    else if is_attendance_marked_today ledger student.id today then
                      (⟨false, alreadyMarkedMsg, 400⟩, ⟨true, true, []⟩, ledger)
                    else
                      let mk := mark_attendance ledger student.id confidence now
                      (⟨true, markedOkMsg, 200⟩,
                        ⟨true, true, [(student.id, confidence)]⟩, mk.2)

/-! ## CLI pipeline (`main.py`, `attendance_flow`) -/

/-- Terminal outcomes of `main.attendance_flow`.  The no-match branch may
interactively offer enrollment; `enroll_flow` never writes an attendance row,
so the model folds it into `noMatch`. -/
inductive FlowResult where
  | livenessFailed
  | frameReadFailed
  | noFaceDetected
  | noMatch
  | marked (key : Int ⊕ String) (confidence : Rat)
deriving DecidableEq, Repr

/-- SQLAlchemy lookup `Student.id == key`: with an integer key a direct
comparison; with a string key SQLite column affinity coerces numeric text to
the integer, and a non-numeric string matches nothing. -/
def student_lookup_sql (students : List Student) (key : Int ⊕ String) :
    Option Student :=
  match key with
  | Sum.inl n => get_student_by_id students n
  | Sum.inr s =>
    match parse_int s with
    | some n => get_student_by_id students n
    | none => none

/-- `main.attendance_flow`: flash liveness, then recognition, then an
unconditional `mark_attendance` on the matched key — using `student.id` when
the subject record resolved and the raw matched key otherwise.  Returns the
outcome and the issued `mark_attendance` calls (key, confidence). -/
def attendance_flow {Img : Type} (is_live : Bool) (captured : Option Img)
    (extract : Img → List (List Rat)) (fs : FaceIndexState) (threshold : Rat)
    (students : List Student) : FlowResult × List ((Int ⊕ String) × Rat) :=
  if is_live = false then (FlowResult.livenessFailed, [])
  else
    match captured with
    | none => (FlowResult.frameReadFailed, [])
    | some frame =>
      match extract frame with
      | [] => (FlowResult.noFaceDetected, [])
      | emb :: _ =>
        match find_match fs threshold emb with
        | (none, _) => (FlowResult.noMatch, [])
        | (some student_id, distOpt) =>
          let student_key := safe_cast_int student_id
          let first := student_lookup_sql students student_key
          let student :=
            match first with
            | some st => some st
            | none => student_lookup_sql students (Sum.inr student_id)
          let confidence := compute_confidence_opt distOpt
          match student with
          | some st =>
            (FlowResult.marked (Sum.inl st.id) confidence,
              [(Sum.inl st.id, confidence)])
          | none =>
            (FlowResult.marked (Sum.inr student_id) confidence,
              [(Sum.inr student_id, confidence)])

/-! ## Concrete fixtures for the closed-instance theorems -/

def oneKey : String := "1"

def twoKey : String := "2"

def sevenKey : String := "7"

def frameTok : String := "frame"

def okMsg : String := "OK"

def aliceName : String := "Alice"

/-- A request with five before and five after frames, no coordinates. -/
def cexReq : AttendanceRequest :=
  ⟨List.replicate 5 frameTok, List.replicate 5 frameTok, none, none⟩

/-- A request with only four before frames. -/
def shortReq : AttendanceRequest :=
  ⟨List.replicate 4 frameTok, List.replicate 5 frameTok, none, none⟩

/-- Metrics on which the composite score is 6.0 and no hard fail triggers. -/
def passMetrics : RawMetrics := ⟨6, 5800, 0, 82, 0, 3 / 2⟩

/-- Metrics whose edge density crosses the hard-fail bound. -/
def hardFailMetrics : RawMetrics := ⟨6, 5800, 1, 82, 0, 3 / 2⟩

/-- An environment in which location passes, every frame decodes, the liveness
metrics pass and one embedding is extracted. -/
def passEnv : AppEnv Unit :=
  ⟨fun _ _ => (true, some 5, okMsg), fun _ => some (),
    fun _ _ => passMetrics, fun _ => [[0]]⟩

/-- Same environment but with hard-failing liveness metrics. -/
def failEnv : AppEnv Unit :=
  ⟨fun _ _ => (true, some 5, okMsg), fun _ => some (),
    fun _ _ => hardFailMetrics, fun _ => [[0]]⟩

/-- A one-entry identity index whose sole subject key is `"1"`. -/
def cexFace : FaceIndexState := ⟨[[0]], [oneKey]⟩

def cexStudents : List Student := [⟨1, aliceName, oneKey, emptyKey, emptyKey⟩]

/-- A ledger that already holds an accepted event for student 1 on day 100. -/
def cexLedger : LedgerState := ⟨[⟨1, ⟨100, 0⟩, 9 / 10⟩]⟩

/-! ## Theorems -/

/-- C10: every attendance event `DatabaseService.mark_attendance` creates is
stamped with the ambient clock at the moment of insertion (the model column
default); the method takes only a student id and a confidence, so the
recorded timestamp is always the insertion-time clock, never a caller-chosen
date. -/
theorem mark_attendance_stamps_insertion_clock (s : LedgerState) (sid : Int)
    (conf : Rat) (now : Timestamp) :
    (mark_attendance s sid conf now).2.events = s.events ++ [⟨sid, now, conf⟩] ∧
    (mark_attendance s sid conf now).1.timestamp = now :=
  ⟨rfl, rfl⟩

/-- C8: for a non-negative distance, `1 / (1 + d)` lies in `(0, 1]`, equals `1`
exactly at `d = 0`, and is strictly decreasing in the distance. -/
theorem compute_confidence_bounds_mono (d₁ d₂ : Rat) (h₁ : 0 ≤ d₁) :
    0 < compute_confidence_from_distance d₁ ∧
    compute_confidence_from_distance d₁ ≤ 1 ∧
    (compute_confidence_from_distance d₁ = 1 ↔ d₁ = 0) ∧
    (d₁ < d₂ →
      compute_confidence_from_distance d₂ < compute_confidence_from_distance d₁) := by
  unfold compute_confidence_from_distance
  have hpos : (0 : Rat) < 1 + d₁ := by linarith
  refine ⟨by positivity, ?_, ?_, ?_⟩
  · rw [div_le_one hpos]
    linarith
  · rw [div_eq_one_iff_eq (ne_of_gt hpos)]
    constructor
    · intro h
      linarith
    · intro h
      rw [h]
      norm_num
  · intro hlt
    exact one_div_lt_one_div_of_lt hpos (by linarith)

/-- Witness for C8 at `d₁ = 1/2`, `d₂ = 2`. -/
theorem compute_confidence_bounds_mono_witness :
    0 < compute_confidence_from_distance (1 / 2) ∧
    compute_confidence_from_distance (1 / 2) ≤ 1 ∧
    (compute_confidence_from_distance (1 / 2) = 1 ↔ (1 / 2 : Rat) = 0) ∧
    ((1 / 2 : Rat) < 2 →
      compute_confidence_from_distance 2 < compute_confidence_from_distance (1 / 2)) :=
  compute_confidence_bounds_mono (1 / 2) 2 (by norm_num)

/-- C2 counterexample: a metrics bundle whose brightness delta (20%) lies
outside the plausible envelope `[2.5, 12]` yet passes the liveness check with
`is_live = true` — brightness delta out of envelope is not a hard fail. -/
theorem brightness_envelope_not_hard_fail_cex :
    (analyze_frames ⟨20, 5000, 1 / 100, 60, 1 / 10, 3 / 2⟩).1 = true ∧
    ¬ (MIN_BRIGHTNESS_CHANGE ≤ (20 : Rat) ∧ (20 : Rat) ≤ MAX_BRIGHTNESS_CHANGE) := by
  constructor
  · norm_num [analyze_frames, check_liveness_with_scoring, brightness_score,
      variance_score, edge_score, uniformity_score, nonuniformity_score,
      mean_delta_score, MIN_BRIGHTNESS_CHANGE, MAX_BRIGHTNESS_CHANGE,
      MIN_COLOR_VARIANCE, MAX_EDGE_DENSITY, MIN_UNIFORMITY_BOUND,
      MAX_NONUNIFORMITY_BOUND, MIN_MEAN_DELTA_BOUND, MAX_MEAN_DELTA_BOUND,
      MIN_TOTAL_SCORE, HARD_FAIL_EDGE_DENSITY, HARD_FAIL_LOW_VARIANCE]
  · norm_num [MIN_BRIGHTNESS_CHANGE, MAX_BRIGHTNESS_CHANGE]

/-- C2 (amended): the verifier returns `is_live = false` whenever any of the
actual hard-fail thresholds is crossed — edge density above `0.065`, color
variance below `2200`, or nonuniformity above `0.6` — regardless of the
composite score. -/
theorem hard_fail_thresholds_force_reject (r : RawMetrics)
    (h : r.edge_density > HARD_FAIL_EDGE_DENSITY ∨
        r.color_variance < HARD_FAIL_LOW_VARIANCE ∨
        r.nonuniformity > 3 / 5) :
    (analyze_frames r).1 = false := by
  simp only [analyze_frames, check_liveness_with_scoring]
  rcases h with h | h | h <;>
    · split_ifs <;> rfl

/-- Witness for C2: edge density `0.08 > 0.065` hard-fails. -/
theorem hard_fail_thresholds_force_reject_witness :
    (analyze_frames ⟨6, 5800, 8 / 100, 82, 0, 3 / 2⟩).1 = false :=
  hard_fail_thresholds_force_reject ⟨6, 5800, 8 / 100, 82, 0, 3 / 2⟩
    (Or.inl (by norm_num [HARD_FAIL_EDGE_DENSITY]))

/-- C9: when the measured positive mean brightness delta is `0`, the computed
nonuniformity is `0` as well and `verify_liveness` classifies the attempt as
live under the default configuration; the verdict reads only the two upper
bounds, so two configurations differing only in `min_mean_delta` decide
identically. -/
theorem flash_zero_delta_classified_live (deltas : List Rat)
    (cfg cfg' : FlashConfig) (h0 : flash_mean_delta deltas = 0)
    (hnu : cfg.max_nonuniformity = cfg'.max_nonuniformity)
    (hmm : cfg.max_mean = cfg'.max_mean) :
    flash_nonuniformity deltas = 0 ∧
    flash_verdict flashDefaults (flash_mean_delta deltas)
      (flash_nonuniformity deltas) ∧
    (∀ md nu, flash_verdict cfg md nu ↔ flash_verdict cfg' md nu) := by
  unfold flash_mean_delta at h0
  have hz : flash_nonuniformity deltas = 0 := by
    simp only [flash_nonuniformity]
    rw [h0]
    norm_num
  refine ⟨hz, ?_, ?_⟩
  · unfold flash_verdict flash_mean_delta flashDefaults
    rw [h0, hz]
    norm_num
  · intro md nu
    unfold flash_verdict
    rw [hnu, hmm]

/-- Witness for C9: a capture with no positive brightness response
(`deltas = [-1, 0]`), under two configs that differ only in
`min_mean_delta`. -/
theorem flash_zero_delta_classified_live_witness :
    flash_nonuniformity [-1, 0] = 0 ∧
    flash_verdict flashDefaults (flash_mean_delta [-1, 0])
      (flash_nonuniformity [-1, 0]) ∧
    (∀ md nu, flash_verdict ⟨0, 3, 1 / 2⟩ md nu ↔
      flash_verdict ⟨42, 3, 1 / 2⟩ md nu) :=
  flash_zero_delta_classified_live [-1, 0] ⟨0, 3, 1 / 2⟩ ⟨42, 3, 1 / 2⟩
    (by norm_num [flash_mean_delta, meanQ, clip0]) rfl rfl

/-- C5: inserting via `add_to_index` appends the vector and its subject key in
lockstep, so the vector count stays equal to the key count and the k-th
vector keeps corresponding to the k-th key; saving and reloading returns the
identical pair. -/
theorem index_id_map_consistent (st : FaceIndexState) (d : DiskState)
    (emb : List Rat) (sid : String)
    (hlen : st.id_map.length = st.index.length) :
    ((add_to_index st emb sid d).1).id_map.length
        = ((add_to_index st emb sid d).1).index.length ∧
    ((add_to_index st emb sid d).1).index.zip ((add_to_index st emb sid d).1).id_map
        = st.index.zip st.id_map ++ [(emb, sid)] ∧
    load_index (save_index (add_to_index st emb sid d).1 d)
        = (add_to_index st emb sid d).1 := by
  refine ⟨?_, ?_, ?_⟩
  · simp [add_to_index, hlen]
  · simp [add_to_index, List.zip_append hlen.symm]
  · rfl

theorem nearestAux_snd_le_best (q : List Rat) :
    ∀ (vs : List (List Rat)) (i : Nat) (best : Nat × Rat),
      (nearestAux q vs i best).2 ≤ best.2 := by
  intro vs
  induction vs with
  | nil => intro i best; exact le_refl _
  | cons w ws ih =>
    intro i best
    simp only [nearestAux]
    split_ifs with hlt
    · exact le_trans (ih (i + 1) (i, l2sq q w)) (le_of_lt hlt)
    · exact ih (i + 1) best

theorem nearestAux_snd_le_mem (q : List Rat) :
    ∀ (vs : List (List Rat)) (i : Nat) (best : Nat × Rat) (v : List Rat),
      v ∈ vs → (nearestAux q vs i best).2 ≤ l2sq q v := by
  intro vs
  induction vs with
  | nil => intro i best v hv; simp at hv
  | cons w ws ih =>
    intro i best v hv
    simp only [nearestAux]
    rcases List.mem_cons.mp hv with rfl | hv
    · split_ifs with hlt
      · exact nearestAux_snd_le_best q ws (i + 1) (i, l2sq q v)
      · exact le_trans (nearestAux_snd_le_best q ws (i + 1) best) (le_of_not_lt hlt)
    · split_ifs with hlt
      · exact ih (i + 1) (i, l2sq q w) v hv
      · exact ih (i + 1) best v hv

theorem nearestAux_result (q : List Rat) :
    ∀ (vs : List (List Rat)) (i : Nat) (best : Nat × Rat),
      nearestAux q vs i best = best ∨
      ∃ j, j < vs.length ∧ nearestAux q vs i best = (i + j, l2sq q (vs.getD j [])) := by
  intro vs
  induction vs with
  | nil => intro i best; left; rfl
  | cons w ws ih =>
    intro i best
    simp only [nearestAux]
    split_ifs with hlt
    · rcases ih (i + 1) (i, l2sq q w) with heq | ⟨j, hj, heq⟩
      · right
        refine ⟨0, by simp, ?_⟩
        simpa using heq
      · right
        refine ⟨j + 1, by simpa using Nat.succ_lt_succ hj, ?_⟩
        rw [heq]
        have h1 : i + 1 + j = i + (j + 1) := by omega
        simp [h1, List.getD_cons_succ]
    · rcases ih (i + 1) best with heq | ⟨j, hj, heq⟩
      · left; exact heq
      · right
        refine ⟨j + 1, by simpa using Nat.succ_lt_succ hj, ?_⟩
        rw [heq]
        have h1 : i + 1 + j = i + (j + 1) := by omega
        simp [h1, List.getD_cons_succ]

/-- C3: `find_match` on an empty index returns `(None, None)`; on a nonempty
index the search yields the position and distance `d` of the nearest stored
entry (minimal over all entries), and `find_match` returns `(None, d)` when
`d` exceeds the threshold and `(subject key of the nearest entry, d)` when
`d` is at most the threshold. -/
theorem find_match_spec (st : FaceIndexState) (threshold : Rat) (emb : List Rat)
    (hlen : st.id_map.length = st.index.length) :
    (st.index = [] → find_match st threshold emb = (none, none)) ∧
    (st.index ≠ [] → ∃ pr, searchNearest st.index emb = some pr) ∧
    (∀ idx d, searchNearest st.index emb = some (idx, d) →
      idx < st.index.length ∧ idx < st.id_map.length ∧
      l2sq emb (st.index.getD idx []) = d ∧
      (∀ v ∈ st.index, d ≤ l2sq emb v) ∧
      (threshold < d → find_match st threshold emb = (none, some d)) ∧
      (d ≤ threshold →
        find_match st threshold emb
          = (some (st.id_map.getD idx emptyKey), some d))) := by
  refine ⟨?_, ?_, ?_⟩
  · intro h
    simp [find_match, searchNearest, h]
  · intro h
    rcases hidx : st.index with _ | ⟨v, vs⟩
    · exact absurd hidx h
    · exact ⟨nearestAux emb vs 1 (0, l2sq emb v), by simp [searchNearest]⟩
  · intro idx d hsearch
    obtain ⟨v, vs, hidx⟩ : ∃ v vs, st.index = v :: vs := by
      rcases h' : st.index with _ | ⟨v, vs⟩
      · rw [h'] at hsearch
        simp [searchNearest] at hsearch
      · exact ⟨v, vs, rfl⟩
    rw [hidx] at hsearch
    simp only [searchNearest, Option.some.injEq] at hsearch
    have hmin : ∀ w ∈ st.index, d ≤ l2sq emb w := by
      intro w hw
      have hd : (nearestAux emb vs 1 (0, l2sq emb v)).2 = d := by rw [hsearch]
      rw [hidx] at hw
      rcases List.mem_cons.mp hw with rfl | hw
      · rw [← hd]
        exact nearestAux_snd_le_best emb vs 1 (0, l2sq emb w)
      · rw [← hd]
        exact nearestAux_snd_le_mem emb vs 1 (0, l2sq emb v) w hw
    have hthr₁ : threshold < d → find_match st threshold emb = (none, some d) := by
      intro h
      simp only [find_match, hidx, searchNearest, hsearch]
      rw [if_pos h]
    have hthr₂ : d ≤ threshold →
        find_match st threshold emb = (some (st.id_map.getD idx emptyKey), some d) := by
      intro h
      simp only [find_match, hidx, searchNearest, hsearch]
      rw [if_neg (not_lt.mpr h)]
    rcases nearestAux_result emb vs 1 (0, l2sq emb v) with heq | ⟨j, hj, heq⟩
    · rw [heq] at hsearch
      injection hsearch with h1 h2
      subst h1
      subst h2
      have hlt₁ : 0 < st.index.length := by
        rw [hidx]
        simp
      refine ⟨hlt₁, by rw [hlen]; exact hlt₁, ?_, hmin, hthr₁, hthr₂⟩
      rw [hidx]
      rfl
    · rw [heq] at hsearch
      injection hsearch with h1 h2
      subst h1
      subst h2
      have hlt₁ : 1 + j < st.index.length := by
        rw [hidx]
        simp only [List.length_cons]
        omega
      refine ⟨hlt₁, by rw [hlen]; exact hlt₁, ?_, hmin, hthr₁, hthr₂⟩
      rw [hidx]
      have h3 : 1 + j = j + 1 := by omega
      rw [h3]
      simp [List.getD_cons_succ]

/-- Witness for C3: a two-entry index probed at the first stored vector. -/
theorem find_match_spec_witness :
    ((⟨[[0], [10]], [oneKey, twoKey]⟩ : FaceIndexState).index = [] →
      find_match ⟨[[0], [10]], [oneKey, twoKey]⟩ 1 [0] = (none, none)) ∧
    ((⟨[[0], [10]], [oneKey, twoKey]⟩ : FaceIndexState).index ≠ [] →
      ∃ pr, searchNearest [[0], [10]] [0] = some pr) ∧
    (∀ idx d, searchNearest [[0], [10]] [0] = some (idx, d) →
      idx < ([[0], [10]] : List (List Rat)).length ∧
      idx < ([oneKey, twoKey] : List String).length ∧
      l2sq [0] (([[0], [10]] : List (List Rat)).getD idx []) = d ∧
      (∀ v ∈ ([[0], [10]] : List (List Rat)), d ≤ l2sq [0] v) ∧
      ((1 : Rat) < d → find_match ⟨[[0], [10]], [oneKey, twoKey]⟩ 1 [0] = (none, some d)) ∧
      (d ≤ 1 →
        find_match ⟨[[0], [10]], [oneKey, twoKey]⟩ 1 [0]
          = (some (([oneKey, twoKey] : List String).getD idx emptyKey), some d))) :=
  find_match_spec ⟨[[0], [10]], [oneKey, twoKey]⟩ 1 [0] rfl

theorem str_append_ne_empty (a b : String) (h : a ≠ "") : a ++ b ≠ "" := by
  intro hab
  apply h
  have hd : a.data ++ b.data = ([] : List Char) := by
    have := congrArg String.data hab
    simpa [String.data_append] using this
  have ha : a.data = [] := (List.append_eq_nil.mp hd).1
  cases a
  simp_all

theorem check_reject_reason_ne_empty (m : Metrics)
    (h : (check_liveness_with_scoring m).1 = false) :
    (check_liveness_with_scoring m).2.1 ≠ "" := by
  simp only [check_liveness_with_scoring] at h ⊢
  split_ifs at h ⊢ with h1 h2 h3 h4 h5 h6
  · exact str_append_ne_empty _ _ (str_append_ne_empty _ _ (by decide))
  · exact str_append_ne_empty _ _ (str_append_ne_empty _ _ (by decide))
  · exact str_append_ne_empty _ _ (str_append_ne_empty _ _ (by decide))
  · simp [h4] at h
  · exact str_append_ne_empty _ _ (by decide)
  · exact str_append_ne_empty _ _ (by decide)
  · exact str_append_ne_empty _ _
      (str_append_ne_empty _ _ (str_append_ne_empty _ _ (by decide)))

/-- C6: whenever the liveness analysis returns `is_live = false` it also
returns a non-empty reason string, and the browser route surfaces exactly
that string as the `message` of its 400 rejection. -/
theorem liveness_reject_reason_surfaced {Img : Type} (env : AppEnv Img)
    (req : AttendanceRequest) (fs : FaceIndexState) (threshold : Rat)
    (students : List Student) (ledger : LedgerState) (today : Int)
    (now : Timestamp)
    (hloc : (env.verify_location req.latitude req.longitude).1 = true)
    (hb : req.before_frames.length = 5) (ha : req.after_frames.length = 5)
    (hdb : (req.before_frames.map env.decode_base64_image).any Option.isNone = false)
    (hda : (req.after_frames.map env.decode_base64_image).any Option.isNone = false)
    (hlive : (analyze_frames (env.frame_metrics
        (req.before_frames.map env.decode_base64_image).reduceOption
        (req.after_frames.map env.decode_base64_image).reduceOption)).1 = false) :
    (analyze_frames (env.frame_metrics
        (req.before_frames.map env.decode_base64_image).reduceOption
        (req.after_frames.map env.decode_base64_image).reduceOption)).2.2 ≠ "" ∧
    take_attendance_browser env req fs threshold students ledger today now
      = (⟨false, (analyze_frames (env.frame_metrics
            (req.before_frames.map env.decode_base64_image).reduceOption
            (req.after_frames.map env.decode_base64_image).reduceOption)).2.2, 400⟩,
         ⟨true, false, []⟩, ledger) := by
  constructor
  · exact check_reject_reason_ne_empty _ hlive
  · simp [take_attendance_browser, hloc, hb, ha, hdb, hda, hlive]

/-- Witness for C6: the fixture environment whose metrics hard-fail on edge
density. -/
theorem liveness_reject_reason_surfaced_witness :
    (analyze_frames (failEnv.frame_metrics
        (cexReq.before_frames.map failEnv.decode_base64_image).reduceOption
        (cexReq.after_frames.map failEnv.decode_base64_image).reduceOption)).2.2 ≠ "" ∧
    take_attendance_browser failEnv cexReq cexFace 1 cexStudents ⟨[]⟩ 100 ⟨100, 1⟩
      = (⟨false, (analyze_frames (failEnv.frame_metrics
            (cexReq.before_frames.map failEnv.decode_base64_image).reduceOption
            (cexReq.after_frames.map failEnv.decode_base64_image).reduceOption)).2.2, 400⟩,
         ⟨true, false, []⟩, ⟨[]⟩) :=
  liveness_reject_reason_surfaced failEnv cexReq cexFace 1 cexStudents ⟨[]⟩ 100
    ⟨100, 1⟩ rfl rfl rfl rfl rfl
    (by norm_num [failEnv, hardFailMetrics, analyze_frames,
      check_liveness_with_scoring, HARD_FAIL_EDGE_DENSITY])

/-- C4: with the location gate passed, a request whose batches are not exactly
5 and 5 frames, or in which any frame fails to decode, is rejected as an input
error (400) before any liveness analysis, identity match, or ledger write
takes place. -/
theorem input_contract_rejected_before_liveness {Img : Type} (env : AppEnv Img)
    (req : AttendanceRequest) (fs : FaceIndexState) (threshold : Rat)
    (students : List Student) (ledger : LedgerState) (today : Int)
    (now : Timestamp)
    (hloc : (env.verify_location req.latitude req.longitude).1 = true) :
    ((req.before_frames.length ≠ 5 ∨ req.after_frames.length ≠ 5) →
      take_attendance_browser env req fs threshold students ledger today now
        = (⟨false, expectedFramesMsg, 400⟩, ⟨false, false, []⟩, ledger)) ∧
    (req.before_frames.length = 5 → req.after_frames.length = 5 →
      ((req.before_frames.map env.decode_base64_image).any Option.isNone = true ∨
        (req.after_frames.map env.decode_base64_image).any Option.isNone = true) →
      take_attendance_browser env req fs threshold students ledger today now
        = (⟨false, decodeFailMsg, 400⟩, ⟨false, false, []⟩, ledger)) := by
  constructor
  · intro h
    simp [take_attendance_browser, hloc, h]
  · intro hb ha h
    simp only [take_attendance_browser, hloc]
    rw [if_neg (by simp), if_neg (by simp [hb, ha]), if_pos h]

/-- Witness for C4: the four-before-frame request is rejected with the frame
count message, leaving the ledger untouched and no stage executed. -/
theorem input_contract_rejected_before_liveness_witness :
    take_attendance_browser passEnv shortReq cexFace 1 cexStudents ⟨[]⟩ 100
        ⟨100, 1⟩
      = (⟨false, expectedFramesMsg, 400⟩, ⟨false, false, []⟩, ⟨[]⟩) :=
  (input_contract_rejected_before_liveness passEnv shortReq cexFace 1
    cexStudents ⟨[]⟩ 100 ⟨100, 1⟩ rfl).1 (Or.inl (by decide))

/-- C7 counterexample: in the CLI flow (`main.attendance_flow`), a matched
subject key `"7"` that resolves to no Subject record is not rejected — the
flow still calls `mark_attendance` with the raw unresolved key and full
confidence. -/
theorem unresolved_subject_key_marks_attendance_cex :
    attendance_flow true (some ()) (fun _ => [[0]])
        ⟨[[0]], [sevenKey]⟩ 1 [] =
      (FlowResult.marked (Sum.inr sevenKey) 1, [(Sum.inr sevenKey, 1)]) := by
  have hp : parse_int sevenKey = some 7 := by decide
  norm_num [attendance_flow, find_match, searchNearest, nearestAux, l2sq,
    safe_cast_int, hp, student_lookup_sql, get_student_by_id,
    compute_confidence_opt, compute_confidence_from_distance]

/-- C7 (amended): the browser route rejects an unresolved matched key with
the dedicated "Student record not found" message — distinct from the
"not recognized" outcome — and performs no ledger write; the CLI flow
instead marks attendance using the raw unresolved key. -/
theorem subject_record_missing_outcomes {Img Img' : Type} (env : AppEnv Img)
    (req : AttendanceRequest) (fs : FaceIndexState) (threshold : Rat)
    (students : List Student) (ledger : LedgerState) (today : Int)
    (now : Timestamp) (lastImg : Img) (emb : List Rat) (rest : List (List Rat))
    (sid : String) (n : Int) (dist : Rat)
    (captured : Img') (extract' : Img' → List (List Rat))
    (fs' : FaceIndexState) (thr' : Rat) (students' : List Student)
    (sid' : String) (dOpt : Option Rat) (emb' : List Rat)
    (rest' : List (List Rat))
    (hloc : (env.verify_location req.latitude req.longitude).1 = true)
    (hb : req.before_frames.length = 5) (ha : req.after_frames.length = 5)
    (hdb : (req.before_frames.map env.decode_base64_image).any Option.isNone = false)
    (hda : (req.after_frames.map env.decode_base64_image).any Option.isNone = false)
    (hlive : (analyze_frames (env.frame_metrics
        (req.before_frames.map env.decode_base64_image).reduceOption
        (req.after_frames.map env.decode_base64_image).reduceOption)).1 = true)
    (hlast : ((req.after_frames.map env.decode_base64_image).reduceOption).getLast?
        = some lastImg)
    (hemb : env.extract_embedding_from_frame lastImg = emb :: rest)
    (hmatch : find_match fs threshold emb = (some sid, some dist))
    (hsid : parse_int sid = some n)
    (hstud : get_student_by_id students n = none)
    (hx : extract' captured = emb' :: rest')
    (hm : find_match fs' thr' emb' = (some sid', dOpt))
    (hl1 : student_lookup_sql students' (safe_cast_int sid') = none)
    (hl2 : student_lookup_sql students' (Sum.inr sid') = none) :
    take_attendance_browser env req fs threshold students ledger today now
      = (⟨false, studentNotFoundMsg, 400⟩, ⟨true, true, []⟩, ledger) ∧
    studentNotFoundMsg ≠ notRecognizedMsg ∧
    attendance_flow true (some captured) extract' fs' thr' students'
      = (FlowResult.marked (Sum.inr sid') (compute_confidence_opt dOpt),
         [(Sum.inr sid', compute_confidence_opt dOpt)]) := by
  refine ⟨?_, by decide, ?_⟩
  · simp only [take_attendance_browser, hloc]
    rw [if_neg (by simp), if_neg (by simp [hb, ha]), if_neg (by simp [hdb, hda]),
      if_neg (by simp [hlive])]
    simp [hlast, hemb, hmatch, hsid, hstud]
  · simp only [attendance_flow]
    rw [if_neg (by simp)]
    simp [hx, hm, hl1, hl2]

/-- Witness for C7 at the fixtures: empty student table, matched key `"7"`. -/
theorem subject_record_missing_outcomes_witness :
    take_attendance_browser passEnv cexReq ⟨[[0]], [sevenKey]⟩ 1 [] ⟨[]⟩ 100
        ⟨100, 1⟩
      = (⟨false, studentNotFoundMsg, 400⟩, ⟨true, true, []⟩, ⟨[]⟩) ∧
    studentNotFoundMsg ≠ notRecognizedMsg ∧
    attendance_flow true (some ()) (fun _ => [[0]]) ⟨[[0]], [sevenKey]⟩ 1 []
      = (FlowResult.marked (Sum.inr sevenKey) (compute_confidence_opt (some 0)),
         [(Sum.inr sevenKey, compute_confidence_opt (some 0))]) := by
  have hp : parse_int sevenKey = some 7 := by decide
  have hfm : find_match ⟨[[0]], [sevenKey]⟩ 1 [0] = (some sevenKey, some 0) := by
    norm_num [find_match, searchNearest, nearestAux, l2sq]
  exact subject_record_missing_outcomes passEnv
    cexReq ⟨[[0]], [sevenKey]⟩ 1 [] ⟨[]⟩ 100 ⟨100, 1⟩ () [0] [] sevenKey 7 0
    () (fun _ => [[0]]) ⟨[[0]], [sevenKey]⟩ 1 [] sevenKey (some 0) [0] []
    rfl rfl rfl rfl rfl
    (by norm_num [passEnv, passMetrics, analyze_frames,
      check_liveness_with_scoring, brightness_score, variance_score, edge_score,
      uniformity_score, nonuniformity_score, mean_delta_score,
      MIN_BRIGHTNESS_CHANGE, MAX_BRIGHTNESS_CHANGE, MIN_COLOR_VARIANCE,
      MAX_EDGE_DENSITY, MIN_UNIFORMITY_BOUND, MAX_NONUNIFORMITY_BOUND,
      MIN_MEAN_DELTA_BOUND, MAX_MEAN_DELTA_BOUND, MIN_TOTAL_SCORE,
      HARD_FAIL_EDGE_DENSITY, HARD_FAIL_LOW_VARIANCE])
    rfl rfl hfm hp rfl rfl hfm
    (by simp [student_lookup_sql, safe_cast_int, hp, get_student_by_id])
    (by simp [student_lookup_sql, hp, get_student_by_id])

/-- C1 (code bug): `mark_attendance` performs no same-day check — called when
an event for the same student and day already exists, it inserts a second
event; and the browser route's duplicate pre-check invokes
`get_attendance_record`, a method `DatabaseService` does not define, so a
fully valid second-attempt request ends in a 500 `AttributeError` instead of
a duplicate rejection (and, by the same failure, no attempt can ever be
marked through this route). -/
theorem duplicate_not_refused_bug :
    (mark_attendance cexLedger 1 (4 / 5) ⟨100, 1⟩).2.events
      = [⟨1, ⟨100, 0⟩, 9 / 10⟩, ⟨1, ⟨100, 1⟩, 4 / 5⟩] ∧
    is_attendance_marked_today cexLedger 1 100 = true ∧
    dupCheckMethodExists = false ∧
    take_attendance_browser passEnv cexReq cexFace 1 cexStudents cexLedger 100
        ⟨100, 1⟩
      = (⟨false, attributeErrorMsg, 500⟩, ⟨true, true, []⟩, cexLedger) := by
  have hp : parse_int oneKey = some 1 := by decide
  have hd : dupCheckMethodExists = false := by decide
  have hfm : find_match cexFace 1 [0] = (some oneKey, some 0) := by
    norm_num [cexFace, find_match, searchNearest, nearestAux, l2sq]
  have hlv : (analyze_frames (passEnv.frame_metrics
      (cexReq.before_frames.map passEnv.decode_base64_image).reduceOption
      (cexReq.after_frames.map passEnv.decode_base64_image).reduceOption)).1
        = true := by
    norm_num [passEnv, passMetrics, analyze_frames, check_liveness_with_scoring,
      brightness_score, variance_score, edge_score, uniformity_score,
      nonuniformity_score, mean_delta_score, MIN_BRIGHTNESS_CHANGE,
      MAX_BRIGHTNESS_CHANGE, MIN_COLOR_VARIANCE, MAX_EDGE_DENSITY,
      MIN_UNIFORMITY_BOUND, MAX_NONUNIFORMITY_BOUND, MIN_MEAN_DELTA_BOUND,
      MAX_MEAN_DELTA_BOUND, MIN_TOTAL_SCORE, HARD_FAIL_EDGE_DENSITY,
      HARD_FAIL_LOW_VARIANCE]
  refine ⟨rfl, by decide, hd, ?_⟩
  simp only [take_attendance_browser]
  rw [if_neg (by simp [passEnv]), if_neg (by simp [cexReq]),
    if_neg (by simp [cexReq, passEnv]), if_neg (by simp [hlv])]
  norm_num [cexReq, passEnv, frameTok, hfm, hp, hd, cexStudents,
    get_student_by_id]
  rfl

/-- Witness for C5: one insertion into the singleton state, saved and
reloaded. -/
theorem index_id_map_consistent_witness :
    ((add_to_index ⟨[[0]], [emptyKey]⟩ [1] emptyKey ⟨none, none⟩).1).id_map.length
        = ((add_to_index ⟨[[0]], [emptyKey]⟩ [1] emptyKey ⟨none, none⟩).1).index.length ∧
    ((add_to_index ⟨[[0]], [emptyKey]⟩ [1] emptyKey ⟨none, none⟩).1).index.zip
        ((add_to_index ⟨[[0]], [emptyKey]⟩ [1] emptyKey ⟨none, none⟩).1).id_map
        = ([[0]] : List (List Rat)).zip [emptyKey] ++ [([1], emptyKey)] ∧
    load_index (save_index (add_to_index ⟨[[0]], [emptyKey]⟩ [1] emptyKey
        ⟨none, none⟩).1 ⟨none, none⟩)
        = (add_to_index ⟨[[0]], [emptyKey]⟩ [1] emptyKey ⟨none, none⟩).1 :=
  index_id_map_consistent ⟨[[0]], [emptyKey]⟩ ⟨none, none⟩ [1] emptyKey rfl
